import Mathlib

/-!
Shallow embedding of the exception-bridge module (`src/err.rs`) of the
repository: the `PyErr` record, its lazy `PyErrValue` payload, and the
operations that synchronize it with the host interpreter's single global
error slot (`fetch`, `restore`, `normalize`, `clone_ref`, `matches`,
`is_instance`, `warn`, the foreign-error conversions).

The host interpreter (CPython, an external collaborator) is modelled by:
a kind enumeration for the standard exception classes with their base-class
chain, an object universe `PyObj`, a global slot `PyState`, and pure models
of the host capabilities the bridge calls through FFI
(`PyErr_Fetch`/`PyErr_Restore`/`PyErr_NormalizeException`/
`PyErr_GivenExceptionMatches`/`PyErr_PrintEx`). The GIL token (`Python`)
carries no data in the source beyond proof of lock possession, so it is
left implicit here; state is passed explicitly instead. Side effects on the
standard error stream are modelled as an explicit event list.
-/

/-- The exception kinds (classes of the host's standard exception hierarchy,
plus the distinguished panic sentinel) that the bridge code mentions. -/
inductive ExcKind where
  | BaseException
  | Exception
  | SystemError
  | TypeError
  | ValueError
  | UnicodeDecodeError
  | OSError
  | ConnectionError
  | FileNotFoundError
  | BrokenPipeError
  | ConnectionRefusedError
  | ConnectionAbortedError
  | ConnectionResetError
  | InterruptedError
  | BlockingIOError
  | TimeoutError
  | RuntimeError
  | PanicException
  deriving DecidableEq, Repr

/-- The base class of each exception kind in the host's hierarchy
(`PanicException` derives directly from `BaseException`). -/
def parent : ExcKind → Option ExcKind
  | ExcKind.BaseException => Option.none
  | ExcKind.Exception => some ExcKind.BaseException
  | ExcKind.SystemError => some ExcKind.Exception
  | ExcKind.TypeError => some ExcKind.Exception
  | ExcKind.ValueError => some ExcKind.Exception
  | ExcKind.UnicodeDecodeError => some ExcKind.ValueError
  | ExcKind.OSError => some ExcKind.Exception
  | ExcKind.ConnectionError => some ExcKind.OSError
  | ExcKind.FileNotFoundError => some ExcKind.OSError
  | ExcKind.BrokenPipeError => some ExcKind.ConnectionError
  | ExcKind.ConnectionRefusedError => some ExcKind.ConnectionError
  | ExcKind.ConnectionAbortedError => some ExcKind.ConnectionError
  | ExcKind.ConnectionResetError => some ExcKind.ConnectionError
  | ExcKind.InterruptedError => some ExcKind.OSError
  | ExcKind.BlockingIOError => some ExcKind.OSError
  | ExcKind.TimeoutError => some ExcKind.OSError
  | ExcKind.RuntimeError => some ExcKind.Exception
  | ExcKind.PanicException => some ExcKind.BaseException

/-- Walk up the base-class chain for at most `n` steps, collecting classes. -/
def isSubclassAux : Nat → ExcKind → ExcKind → Bool
  | 0, _, _ => false
  | n + 1, a, b =>
    decide (a = b) ||
      match parent a with
      | some p => isSubclassAux n p b
      | Option.none => false

/-- `isSubclass a b` is the host's subtype test on exception classes
(`PyType_IsSubtype`); the hierarchy has depth at most 4, so fuel 8 is exact. -/
def isSubclass (a b : ExcKind) : Bool := isSubclassAux 8 a b

/-- A host type object: either one of the known exception classes, or a
non-exception class (e.g. `int`) identified by its name. -/
inductive PyType where
  | exc (k : ExcKind)
  | nonExc (name : String)
  deriving DecidableEq, Repr

/-- The host's `PyExceptionClass_Check` predicate, on type objects. -/
def isExceptionClass : PyType → Bool
  | PyType.exc _ => true
  | PyType.nonExc _ => false

/-- The host object universe, as far as the bridge observes it: strings,
tuples, realized exception instances (carrying the decoded message the
instance was constructed with, when there is one), type objects, the `None`
singleton, and opaque other objects. -/
inductive PyObj where
  | str (s : String)
  | tuple (xs : List PyObj)
  | excInst (k : ExcKind) (msg : Option String)
  | typeObj (t : PyType)
  | noneObj
  | other (name : String)

/-- The host's `PyExceptionInstance_Check` predicate. -/
def isExceptionInstance : PyObj → Bool
  | PyObj.excInst _ _ => true
  | _ => false

/-- The host's `PyExceptionInstance_Class` accessor (only called on objects
that passed `isExceptionInstance`; the fallback arm is unreachable there). -/
def exceptionInstanceClass : PyObj → PyType
  | PyObj.excInst k _ => PyType.exc k
  | _ => PyType.nonExc "unreachable"

/-- The host's `PyExceptionClass_Check` on an arbitrary object. -/
def isExceptionClassObj : PyObj → Bool
  | PyObj.typeObj t => isExceptionClass t
  | _ => false

/-- View an object as a type object (used after a class check succeeded). -/
def asTypeObj : PyObj → PyType
  | PyObj.typeObj t => t
  | _ => PyType.nonExc "unreachable"

/-- Decoding an object as text (`obj.extract::<String>()` in the source):
succeeds exactly on string objects. -/
def extractString : PyObj → Option String
  | PyObj.str s => some s
  | _ => Option.none

/-- The message an exception constructor records from its argument object:
a bare string, or a 1-tuple holding a string; anything else leaves the
instance without a decodable message. -/
def excArgsMsg : Option PyObj → Option String
  | some (PyObj.str s) => some s
  | some (PyObj.tuple [PyObj.str s]) => some s
  | _ => Option.none

/-- Host-side construction of an exception instance of class `k` from a raw
constructor-argument object (null means no arguments). -/
def mkInstance (k : ExcKind) (args : Option PyObj) : PyObj :=
  PyObj.excInst k (excArgsMsg args)

/-- `PyErrValue` from `src/err.rs`: the payload of a `PyErr`. The two lazy
variants box a producer closure in the source; here a producer is
represented by the object it yields when invoked (`arguments(py)` for
`ToArgs`, `to_object(py)` for `ToObject`). -/
inductive PyErrValue where
  | None
  | Value (ob : PyObj)
  | ToArgs (args : PyObj)
  | ToObject (ob : PyObj)

/-- `PyErr` from `src/err.rs`: exception type (statically a type object,
`Py<PyType>` in the source), payload, and optional traceback. -/
structure PyErr where
  ptype : PyType
  pvalue : PyErrValue
  ptraceback : Option PyObj

/-- The host interpreter's global error slot: empty, or a pending triple
whose type handle is non-null (value and traceback may each be null). -/
structure PyState where
  slot : Option (PyType × Option PyObj × Option PyObj)

/-- Realization of a payload into a raw value handle, exactly as `restore`
and `into_normalized` do it: `None` becomes null, `Value` its handle,
`ToArgs` the producer's argument object, `ToObject` the produced object. -/
def PyErrValue.realize : PyErrValue → Option PyObj
  | PyErrValue.None => Option.none
  | PyErrValue.Value ob => some ob
  | PyErrValue.ToArgs args => some args
  | PyErrValue.ToObject ob => some ob

/-- The message a payload decodes to, where applicable (used to state the
round-trip and conversion claims). -/
def extractMessage : PyObj → Option String
  | PyObj.str s => some s
  | PyObj.excInst _ m => m
  | _ => Option.none

/-- Decoded message of a record: message of its (possibly still lazy)
payload. -/
def PyErr.decodedMessage (e : PyErr) : Option String :=
  match e.pvalue with
  | PyErrValue.None => Option.none
  | PyErrValue.Value ob => extractMessage ob
  | PyErrValue.ToArgs args => extractMessage args
  | PyErrValue.ToObject ob => extractMessage ob

/-- `PyErr::new_from_ffi_tuple`: rebuild a record from raw slot handles; a
null type handle is replaced by the fallback `SystemError` class, a null
value handle becomes the `None` payload. Must not abort on any input. -/
def new_from_ffi_tuple (ptype : Option PyType) (pvalue : Option PyObj)
    (ptraceback : Option PyObj) : PyErr :=
  { ptype := ptype.getD (PyType.exc ExcKind.SystemError)
    pvalue :=
      match pvalue with
      | some ob => PyErrValue.Value ob
      | Option.none => PyErrValue.None
    ptraceback := ptraceback }

/-- `PyErr::new::<T, V>(value)` — explicit type+value construction. The
source asserts `PyExceptionClass_Check` on `T`'s type object and stores
the value lazily as `ToObject`; the fatal assertion is modelled by
returning `Option.none` (abort) when the check fails. -/
def PyErr.new (ty : PyType) (value : PyObj) : Option PyErr :=
  if isExceptionClass ty then
    some { ptype := ty
           pvalue := PyErrValue.ToObject value
           ptraceback := Option.none }
  else Option.none

/-- `PyErr::from_type(exc, args)` — construction from a bare type object
with arguments. The source performs no exception-class check here. -/
def PyErr.from_type (exc : PyType) (args : PyObj) : PyErr :=
  { ptype := exc
    pvalue := PyErrValue.ToObject args
    ptraceback := Option.none }

/-- `PyErr::from_value::<T>(value)` — construction from an already-built
`PyErrValue` (typically lazy). Asserts `PyExceptionClass_Check` on `T`,
modelled as returning `Option.none` (abort) on failure. -/
def PyErr.from_value (ty : PyType) (value : PyErrValue) : Option PyErr :=
  if isExceptionClass ty then
    some { ptype := ty, pvalue := value, ptraceback := Option.none }
  else Option.none

/-- `PyErr::from_instance(obj)` — three-way dispatch on a live object: an
exception instance is wrapped with its runtime class; an exception class is
wrapped with the `None` payload; anything else yields a `TypeError` with a
fixed message. -/
def PyErr.from_instance (obj : PyObj) : PyErr :=
  if isExceptionInstance obj then
    { ptype := exceptionInstanceClass obj
      pvalue := PyErrValue.Value obj
      ptraceback := Option.none }
  else if isExceptionClassObj obj then
    { ptype := asTypeObj obj
      pvalue := PyErrValue.None
      ptraceback := Option.none }
  else
    { ptype := PyType.exc ExcKind.TypeError
      pvalue := PyErrValue.ToObject
        (PyObj.str "exceptions must derive from BaseException")
      ptraceback := Option.none }

/-- `PyErr::restore(self, py)` — realizes the payload and transfers the
triple into the host's global slot (`PyErr_Restore`), replacing whatever
was there. Consumes the record. -/
def PyErr.restore (e : PyErr) (_s : PyState) : PyState :=
  { slot := some (e.ptype, e.pvalue.realize, e.ptraceback) }

/-- Model of the host capability `PyErr_PrintEx`: prints the pending error
to the standard error stream and clears the global slot. -/
def pyErrPrintEx (_setSysLastVars : Bool) (_s : PyState) : PyState :=
  { slot := Option.none }

/-- Events observable on the standard error stream: a literal line, or the
host printing a record's traceback. -/
inductive StderrEvent where
  | line (s : String)
  | printedRecord (e : PyErr)

/-- `PyErr::print(self, py)` — restore followed by `PyErr_PrintEx(0)`;
returns the resulting state and the diagnostic events emitted. -/
def PyErr.print (e : PyErr) (s : PyState) : PyState × List StderrEvent :=
  let s1 := e.restore s
  (pyErrPrintEx false s1, [StderrEvent.printedRecord e])

/-- Model of the host capability `PyErr_Fetch`: read out the pending triple
(null handles when nothing is pending) and clear the slot. -/
def fetchTriple (s : PyState) :
    (Option PyType × Option PyObj × Option PyObj) × PyState :=
  match s.slot with
  | Option.none =>
    ((Option.none, Option.none, Option.none), { slot := Option.none })
  | some (t, v, tb) => ((some t, v, tb), { slot := Option.none })

/-- Modelled from the spec: the distinguished panic sentinel exception type
(`crate::panic::PanicException`, whose defining module is not under
`src/`). Per the spec its sole contract is being a distinguished exception
class whose instance yields the smuggled message when decoded as text; it
is modelled as the dedicated kind `ExcKind.PanicException`. -/
def panicExceptionType : PyType := PyType.exc ExcKind.PanicException

/-- Outcome of `fetch`: a returned record, or a resumed panic (the local
non-recoverable unwind of `std::panic::resume_unwind`) carrying a message. -/
inductive FetchOutcome where
  | returned (e : PyErr)
  | panicked (msg : String)

/-- Result of `fetch`: outcome, post-state of the global slot, and the
events emitted on standard error. -/
structure FetchResult where
  outcome : FetchOutcome
  state : PyState
  stderr : List StderrEvent

/-- `PyErr::fetch(py)` — pulls the pending triple out of the global slot
(clearing it), rebuilds it as a record, and, when the raw type handle is
the panic sentinel's type object, extracts a message from the raw value
handle (falling back to a fixed literal), prints two fixed diagnostic
lines and the record's traceback, and resumes the panic instead of
returning. -/
def fetch (s : PyState) : FetchResult :=
  let r := fetchTriple s
  let t := r.1.1
  let v := r.1.2.1
  let tb := r.1.2.2
  let s1 := r.2
  let err := new_from_ffi_tuple t v tb
  if t = some panicExceptionType then
    let msg :=
      (v.bind extractString).getD "Unwrapped panic from Python code"
    let p := err.print s1
    { outcome := FetchOutcome.panicked msg
      state := p.1
      stderr :=
        StderrEvent.line
            "--- PyO3 is resuming a panic after fetching a PanicException from Python. ---"
          :: StderrEvent.line "Python stack trace below:" :: p.2 }
  else
    { outcome := FetchOutcome.returned err, state := s1, stderr := [] }

/-- Model of the host capability `PyErr_NormalizeException`: if the type is
an exception class and the value is not already an instance of it, an
instance is constructed from the raw value as constructor argument;
afterwards, if the (possibly new) value's own class differs from the type,
the type handle is replaced by that class. -/
def normalizeTriple (t : PyType) (v tb : Option PyObj) :
    PyType × Option PyObj × Option PyObj :=
  match t with
  | PyType.exc k =>
    match v with
    | some (PyObj.excInst k' m) =>
      if isSubclass k' k then
        (PyType.exc k', some (PyObj.excInst k' m), tb)
      else
        (PyType.exc k, some (mkInstance k (some (PyObj.excInst k' m))), tb)
    | _ => (PyType.exc k, some (mkInstance k v), tb)
  | PyType.nonExc n => (PyType.nonExc n, v, tb)

/-- `PyErr::into_normalized(self, py)` — realize the payload, hand the raw
triple to the host's normalize capability, and rebuild the record from
whatever comes back. -/
def PyErr.into_normalized (e : PyErr) : PyErr :=
  let v := e.pvalue.realize
  let r := normalizeTriple e.ptype v e.ptraceback
  new_from_ffi_tuple (some r.1) r.2.1 r.2.2

/-- `PyErr::normalize(&mut self, py)` — overwrites the record in place with
`into_normalized`; in the pure model this is the same function. -/
def PyErr.normalize (e : PyErr) : PyErr := e.into_normalized

/-- One candidate step of the host's `PyErr_GivenExceptionMatches` after
tuple recursion: subtype test when both sides are exception classes,
identity otherwise. -/
def matchesSingle (t : PyType) (exc : PyObj) : Bool :=
  match t, exc with
  | PyType.exc a, PyObj.typeObj (PyType.exc b) => isSubclass a b
  | t', PyObj.typeObj u => decide (t' = u)
  | _, _ => false

mutual
/-- Model of the host capability `PyErr_GivenExceptionMatches` applied to a
type handle: recurses through tuple candidates (and subtuples), otherwise
compares classes. -/
def givenExceptionMatches (t : PyType) (exc : PyObj) : Bool :=
  match exc with
  | PyObj.tuple xs => givenExceptionMatchesList t xs
  | e => matchesSingle t e

/-- Tuple recursion of `givenExceptionMatches`. -/
def givenExceptionMatchesList (t : PyType) (xs : List PyObj) : Bool :=
  match xs with
  | [] => false
  | e :: rest => givenExceptionMatches t e || givenExceptionMatchesList t rest
end

/-- `PyErr::matches(&self, py, exc)` — delegates to the host's matching
capability on the record's type handle. -/
def PyErr.matches (e : PyErr) (exc : PyObj) : Bool :=
  givenExceptionMatches e.ptype exc

/-- `PyErr::is_instance::<T>(&self, py)` — same capability against the
statically known class `T`. -/
def PyErr.is_instance (e : PyErr) (k : ExcKind) : Bool :=
  givenExceptionMatches e.ptype (PyObj.typeObj (PyType.exc k))

/-- `PyErr::clone_ref(&self, py)` — non-consuming duplication: type and
traceback are shared (refcount increment in the source), a `Value` payload
is shared, and both lazy payloads are evaluated immediately into a concrete
`Value`. -/
def PyErr.clone_ref (e : PyErr) : PyErr :=
  { ptype := e.ptype
    pvalue :=
      match e.pvalue with
      | PyErrValue.None => PyErrValue.None
      | PyErrValue.Value ob => PyErrValue.Value ob
      | PyErrValue.ToArgs args => PyErrValue.Value args
      | PyErrValue.ToObject ob => PyErrValue.Value ob
    ptraceback := e.ptraceback }

/-- Outcome of a fallible bridge call: success, a raised record, or a
resumed panic (when `fetch` hit the sentinel while building the error). -/
inductive CallOutcome where
  | ok
  | raised (e : PyErr)
  | panicked (msg : String)

/-- `error_on_minusone(py, result)` — `Ok` for any code other than `-1`;
for `-1`, fetches the pending error from the global slot. -/
def error_on_minusone (result : Int) (s : PyState) : CallOutcome × PyState :=
  if result = -1 then
    let r := fetch s
    match r.outcome with
    | FetchOutcome.returned e => (CallOutcome.raised e, r.state)
    | FetchOutcome.panicked m => (CallOutcome.panicked m, r.state)
  else (CallOutcome.ok, s)

/-- Position of the first nul byte in a string, if any (what
`CString::new` rejects). -/
def firstNulPos (s : String) : Option Nat :=
  s.toList.findIdx? (fun c => c = Char.ofNat 0)

/-- The textual description (`to_string()`) of `std::ffi::NulError` at a
given byte position. -/
def nulErrorMessage (pos : Nat) : String :=
  "nul byte found in provided data at position: " ++ toString pos

/-- The `From<NulError> for PyErr` conversion generated by
`impl_to_pyerr!(std::ffi::NulError, exceptions::ValueError)`: a
`ValueError` record whose lazy arguments are the error's description. -/
def nulErrorToPyErr (pos : Nat) : Option PyErr :=
  PyErr.from_value (PyType.exc ExcKind.ValueError)
    (PyErrValue.ToArgs (PyObj.str (nulErrorMessage pos)))

/-- `PyErr::warn(py, category, message, stacklevel)` — builds a
nul-terminated C string from the message (the `?` operator turns a nul-byte
failure into a `ValueError` record via the `NulError` conversion), then
calls the host's `PyErr_WarnEx` and routes its return code through
`error_on_minusone`. The host call is external; its return code is passed
in as `hostCode`. The outer `Option` models abortion (`Option.none` would
mean a fatal assertion fired; the claim proofs show it never does here). -/
def PyErr.warn (_category : PyObj) (message : String) (_stacklevel : Int)
    (hostCode : Int) (s : PyState) : Option (CallOutcome × PyState) :=
  match firstNulPos message with
  | some p =>
    match nulErrorToPyErr p with
    | some e => some (CallOutcome.raised e, s)
    | Option.none => Option.none
  | Option.none => some (error_on_minusone hostCode s)

/-- The kinds of `std::io::Error` that the `From<io::Error>` conversion
distinguishes (`_` in the source match is `otherKind`). -/
inductive IoErrorKind where
  | brokenPipe
  | connectionRefused
  | connectionAborted
  | connectionReset
  | interrupted
  | notFound
  | wouldBlock
  | timedOut
  | otherKind
  deriving DecidableEq, Repr

/-- A foreign `std::io::Error`, represented by its kind and its textual
description (`to_string()`). -/
structure IoError where
  kind : IoErrorKind
  msg : String

/-- `impl From<io::Error> for PyErr` — the kind match from the source,
each arm calling `from_value` with a lazy-arguments payload whose producer
stringifies the error. -/
def pyErrFromIoError (err : IoError) : Option PyErr :=
  match err.kind with
  | IoErrorKind.brokenPipe =>
    PyErr.from_value (PyType.exc ExcKind.BrokenPipeError)
      (PyErrValue.ToArgs (PyObj.str err.msg))
  | IoErrorKind.connectionRefused =>
    PyErr.from_value (PyType.exc ExcKind.ConnectionRefusedError)
      (PyErrValue.ToArgs (PyObj.str err.msg))
  | IoErrorKind.connectionAborted =>
    PyErr.from_value (PyType.exc ExcKind.ConnectionAbortedError)
      (PyErrValue.ToArgs (PyObj.str err.msg))
  | IoErrorKind.connectionReset =>
    PyErr.from_value (PyType.exc ExcKind.ConnectionResetError)
      (PyErrValue.ToArgs (PyObj.str err.msg))
  | IoErrorKind.interrupted =>
    PyErr.from_value (PyType.exc ExcKind.InterruptedError)
      (PyErrValue.ToArgs (PyObj.str err.msg))
  | IoErrorKind.notFound =>
    PyErr.from_value (PyType.exc ExcKind.FileNotFoundError)
      (PyErrValue.ToArgs (PyObj.str err.msg))
  | IoErrorKind.wouldBlock =>
    PyErr.from_value (PyType.exc ExcKind.BlockingIOError)
      (PyErrValue.ToArgs (PyObj.str err.msg))
  | IoErrorKind.timedOut =>
    PyErr.from_value (PyType.exc ExcKind.TimeoutError)
      (PyErrValue.ToArgs (PyObj.str err.msg))
  | IoErrorKind.otherKind =>
    PyErr.from_value (PyType.exc ExcKind.OSError)
      (PyErrValue.ToArgs (PyObj.str err.msg))

/-- The io-error mapping exactly as the spec's registry table states it
(spec section 4.5); used to compare the source's match against the spec. -/
def specIoTarget : IoErrorKind → ExcKind
  | IoErrorKind.brokenPipe => ExcKind.BrokenPipeError
  | IoErrorKind.connectionRefused => ExcKind.ConnectionRefusedError
  | IoErrorKind.connectionAborted => ExcKind.ConnectionAbortedError
  | IoErrorKind.connectionReset => ExcKind.ConnectionResetError
  | IoErrorKind.interrupted => ExcKind.InterruptedError
  | IoErrorKind.notFound => ExcKind.FileNotFoundError
  | IoErrorKind.wouldBlock => ExcKind.BlockingIOError
  | IoErrorKind.timedOut => ExcKind.TimeoutError
  | IoErrorKind.otherKind => ExcKind.OSError

/-- The conversion generated by `impl_to_pyerr!(E, Target)` for a source
error type mapped to `target`, with the error represented by its
`to_string()` output: `from_value::<Target>(ToArgs(err))` whose producer
stringifies the error. -/
def implToPyErr (target : ExcKind) (msg : String) : Option PyErr :=
  PyErr.from_value (PyType.exc target)
    (PyErrValue.ToArgs (PyObj.str msg))

/-- `impl_to_pyerr!(std::num::ParseIntError, exceptions::ValueError)`. -/
def parseIntErrorToPyErr (msg : String) : Option PyErr :=
  implToPyErr ExcKind.ValueError msg

/-- `impl_to_pyerr!(std::num::ParseFloatError, exceptions::ValueError)`. -/
def parseFloatErrorToPyErr (msg : String) : Option PyErr :=
  implToPyErr ExcKind.ValueError msg

/-- `impl_to_pyerr!(std::str::ParseBoolError, exceptions::ValueError)`. -/
def parseBoolErrorToPyErr (msg : String) : Option PyErr :=
  implToPyErr ExcKind.ValueError msg

/-- `impl_to_pyerr!(std::array::TryFromSliceError, exceptions::ValueError)`. -/
def tryFromSliceErrorToPyErr (msg : String) : Option PyErr :=
  implToPyErr ExcKind.ValueError msg

/-- `impl_to_pyerr!(std::num::TryFromIntError, exceptions::ValueError)`. -/
def tryFromIntErrorToPyErr (msg : String) : Option PyErr :=
  implToPyErr ExcKind.ValueError msg

/-- `impl_to_pyerr!(std::net::AddrParseError, exceptions::ValueError)`. -/
def addrParseErrorToPyErr (msg : String) : Option PyErr :=
  implToPyErr ExcKind.ValueError msg

/-- `impl_to_pyerr!(std::str::Utf8Error, exceptions::UnicodeDecodeError)`. -/
def utf8ErrorToPyErr (msg : String) : Option PyErr :=
  implToPyErr ExcKind.UnicodeDecodeError msg

/-- `impl_to_pyerr!(std::string::FromUtf8Error, exceptions::UnicodeDecodeError)`. -/
def fromUtf8ErrorToPyErr (msg : String) : Option PyErr :=
  implToPyErr ExcKind.UnicodeDecodeError msg

/-- `impl_to_pyerr!(std::string::FromUtf16Error, exceptions::UnicodeDecodeError)`. -/
def fromUtf16ErrorToPyErr (msg : String) : Option PyErr :=
  implToPyErr ExcKind.UnicodeDecodeError msg

/-- `impl_to_pyerr!(std::char::DecodeUtf16Error, exceptions::UnicodeDecodeError)`. -/
def decodeUtf16ErrorToPyErr (msg : String) : Option PyErr :=
  implToPyErr ExcKind.UnicodeDecodeError msg

/-- `impl_to_pyerr!(std::ffi::IntoStringError, exceptions::UnicodeDecodeError)`. -/
def intoStringErrorToPyErr (msg : String) : Option PyErr :=
  implToPyErr ExcKind.UnicodeDecodeError msg

/-- `impl From<std::io::IntoInnerError<W>> for PyErr` — an `OSError`
record with the error's description as lazy arguments. -/
def intoInnerErrorToPyErr (msg : String) : Option PyErr :=
  implToPyErr ExcKind.OSError msg

/-! ## Helper lemmas -/

/-- The host subtype test is reflexive: every exception class matches
itself. -/
theorem isSubclass_refl (k : ExcKind) : isSubclass k k = true := by
  simp [isSubclass, isSubclassAux]

/-- Matching a non-tuple candidate reduces to the single-candidate step. -/
theorem givenExceptionMatches_typeObj (t u : PyType) :
    givenExceptionMatches t (PyObj.typeObj u) =
      matchesSingle t (PyObj.typeObj u) := by
  unfold givenExceptionMatches
  rfl

/-- A record whose type handle is a given class always matches that very
class handle. -/
theorem givenExceptionMatches_self (t : PyType) :
    givenExceptionMatches t (PyObj.typeObj t) = true := by
  rw [givenExceptionMatches_typeObj]
  cases t with
  | exc a => simp [matchesSingle, isSubclass_refl]
  | nonExc n => simp [matchesSingle]

/-- `fetch` on an empty slot: no panic check fires and the fallback record
is returned, slot left empty, nothing printed. -/
theorem fetch_empty (s : PyState) (h : s.slot = Option.none) :
    fetch s =
      { outcome := FetchOutcome.returned
          (new_from_ffi_tuple Option.none Option.none Option.none)
        state := { slot := Option.none }
        stderr := [] } := by
  simp [fetch, fetchTriple, h]

/-- `fetch` on a slot holding a non-sentinel triple returns the rebuilt
record and leaves the slot empty. -/
theorem fetch_nonpanic (s : PyState) (t : PyType) (v tb : Option PyObj)
    (hslot : s.slot = some (t, v, tb)) (ht : t ≠ panicExceptionType) :
    fetch s =
      { outcome := FetchOutcome.returned (new_from_ffi_tuple (some t) v tb)
        state := { slot := Option.none }
        stderr := [] } := by
  simp [fetch, fetchTriple, hslot, ht]

/-! ## Claims -/

/-- C3: when the global slot holds no pending error (the host returns null
handles), `fetch` returns normally — it never aborts or unwinds — and the
returned record's exception type is the fallback `SystemError` kind, with
the empty (`None`) payload and no traceback. -/
theorem c3_fetch_empty_slot_system_error (s : PyState)
    (h : s.slot = Option.none) :
    (fetch s).outcome =
      FetchOutcome.returned
        { ptype := PyType.exc ExcKind.SystemError
          pvalue := PyErrValue.None
          ptraceback := Option.none } := by
  rw [fetch_empty s h]
  rfl

/-- Witness for C3 at the concrete empty state. -/
theorem c3_fetch_empty_slot_system_error_witness :
    (fetch { slot := Option.none }).outcome =
      FetchOutcome.returned
        { ptype := PyType.exc ExcKind.SystemError
          pvalue := PyErrValue.None
          ptraceback := Option.none } :=
  c3_fetch_empty_slot_system_error { slot := Option.none } rfl

/-- C1: for every fetch from a slot whose type handle is the panic-sentinel
exception type, `fetch` does not return a record: it extracts a message
string from the value handle (falling back to the literal "Unwrapped panic
from Python code" when extraction fails), emits two fixed diagnostic lines
to standard error, invokes the record's diagnostic print path, and diverges
via a local non-recoverable unwind carrying that message. -/
theorem c1_fetch_panic_sentinel (s : PyState) (v tb : Option PyObj)
    (h : s.slot = some (panicExceptionType, v, tb)) :
    (fetch s).outcome =
      FetchOutcome.panicked
        ((v.bind extractString).getD "Unwrapped panic from Python code") ∧
    (∀ e, (fetch s).outcome ≠ FetchOutcome.returned e) ∧
    (fetch s).stderr =
      [StderrEvent.line
          "--- PyO3 is resuming a panic after fetching a PanicException from Python. ---",
        StderrEvent.line "Python stack trace below:",
        StderrEvent.printedRecord
          (new_from_ffi_tuple (some panicExceptionType) v tb)] := by
  refine ⟨?_, ?_, ?_⟩ <;>
    simp [fetch, fetchTriple, h, PyErr.print, pyErrPrintEx]

/-- Witness for C1: a restored sentinel triple carrying the string "boom"
makes `fetch` unwind with exactly that message. -/
theorem c1_fetch_panic_sentinel_witness :
    (fetch { slot := some (panicExceptionType, some (PyObj.str "boom"),
        Option.none) }).outcome = FetchOutcome.panicked "boom" :=
  (c1_fetch_panic_sentinel
    { slot := some (panicExceptionType, some (PyObj.str "boom"), Option.none) }
    (some (PyObj.str "boom")) Option.none rfl).1

/-- The raw type currently pending in the slot, if any. -/
def slotType (s : PyState) : Option PyType := s.slot.map (fun x => x.1)

/-- C2: for every non-sentinel record `r`, executing `fetch` (which leaves
the slot empty), then `restore r`, then `fetch` again returns a record
equivalent to `r`: same exception kind and, where applicable, the same
decoded message. -/
theorem c2_fetch_restore_fetch_roundtrip (r : PyErr) (s : PyState)
    (hr : r.ptype ≠ panicExceptionType)
    (hs : slotType s ≠ some panicExceptionType) :
    (∃ e0, (fetch s).outcome = FetchOutcome.returned e0) ∧
    (fetch s).state.slot = Option.none ∧
    (∃ e, (fetch (r.restore (fetch s).state)).outcome =
        FetchOutcome.returned e ∧
      e.ptype = r.ptype ∧ e.decodedMessage = r.decodedMessage) := by
  have hfirst : ∃ e0, fetch s =
      { outcome := FetchOutcome.returned e0
        state := { slot := Option.none }
        stderr := [] } := by
    cases hslot : s.slot with
    | none => exact ⟨_, fetch_empty s hslot⟩
    | some trip =>
      obtain ⟨t, v, tb⟩ := trip
      have ht : t ≠ panicExceptionType := by
        intro hEq
        exact hs (by simp [slotType, hslot, hEq])
      exact ⟨_, fetch_nonpanic s t v tb hslot ht⟩
  obtain ⟨e0, h0⟩ := hfirst
  refine ⟨⟨e0, by rw [h0]⟩, by rw [h0], ?_⟩
  have h2 := fetch_nonpanic (r.restore (fetch s).state) r.ptype
    r.pvalue.realize r.ptraceback rfl hr
  refine ⟨new_from_ffi_tuple (some r.ptype) r.pvalue.realize r.ptraceback,
    by rw [h2], rfl, ?_⟩
  cases hv : r.pvalue <;>
    simp [PyErr.decodedMessage, new_from_ffi_tuple, PyErrValue.realize, hv]

/-- Witness for C2: a lazy `ValueError` record with message "m" survives
the fetch–restore–fetch round trip with kind and message intact. -/
theorem c2_fetch_restore_fetch_roundtrip_witness :
    ∃ e, (fetch (PyErr.restore
        { ptype := PyType.exc ExcKind.ValueError
          pvalue := PyErrValue.ToArgs (PyObj.str "m")
          ptraceback := Option.none }
        (fetch { slot := Option.none }).state)).outcome =
      FetchOutcome.returned e ∧
      e.ptype = PyType.exc ExcKind.ValueError ∧
      e.decodedMessage = some "m" :=
  (c2_fetch_restore_fetch_roundtrip
    { ptype := PyType.exc ExcKind.ValueError
      pvalue := PyErrValue.ToArgs (PyObj.str "m")
      ptraceback := Option.none }
    { slot := Option.none } (by decide) (by decide)).2.2


/-- C5: `normalize` is idempotent — normalizing twice yields exactly the
record a single normalization yields — and normalizing a record whose value
is already an instance of its exception type (same class) changes nothing. -/
theorem c5_normalize_idempotent :
    (∀ r : PyErr, r.normalize.normalize = r.normalize) ∧
    (∀ (k : ExcKind) (m : Option String) (tb : Option PyObj),
      PyErr.normalize
        { ptype := PyType.exc k
          pvalue := PyErrValue.Value (PyObj.excInst k m)
          ptraceback := tb } =
        { ptype := PyType.exc k
          pvalue := PyErrValue.Value (PyObj.excInst k m)
          ptraceback := tb }) := by
  constructor
  · intro r
    obtain ⟨t, v, tb⟩ := r
    have h : PyErr.normalize ⟨t, v, tb⟩ =
        (let q := normalizeTriple t v.realize tb
         new_from_ffi_tuple (some q.1) q.2.1 q.2.2) := rfl
    rw [h]
    generalize v.realize = ov
    cases t with
    | nonExc n => cases ov <;> rfl
    | exc k =>
      cases ov with
      | none =>
        simp [PyErr.normalize, PyErr.into_normalized, PyErrValue.realize,
          normalizeTriple, new_from_ffi_tuple, isSubclass_refl, mkInstance,
          excArgsMsg]
      | some ob =>
        cases ob with
        | excInst k' m =>
          by_cases hsub : isSubclass k' k = true
          · simp [PyErr.normalize, PyErr.into_normalized, PyErrValue.realize,
              normalizeTriple, new_from_ffi_tuple, hsub, isSubclass_refl]
          · simp [PyErr.normalize, PyErr.into_normalized, PyErrValue.realize,
              normalizeTriple, new_from_ffi_tuple, hsub, isSubclass_refl,
              mkInstance, excArgsMsg]
        | str s =>
          simp [PyErr.normalize, PyErr.into_normalized, PyErrValue.realize,
            normalizeTriple, new_from_ffi_tuple, isSubclass_refl, mkInstance,
            excArgsMsg]
        | tuple xs =>
          simp [PyErr.normalize, PyErr.into_normalized, PyErrValue.realize,
            normalizeTriple, new_from_ffi_tuple, isSubclass_refl, mkInstance]
        | typeObj u =>
          simp [PyErr.normalize, PyErr.into_normalized, PyErrValue.realize,
            normalizeTriple, new_from_ffi_tuple, isSubclass_refl, mkInstance,
            excArgsMsg]
        | noneObj =>
          simp [PyErr.normalize, PyErr.into_normalized, PyErrValue.realize,
            normalizeTriple, new_from_ffi_tuple, isSubclass_refl, mkInstance,
            excArgsMsg]
        | other nm =>
          simp [PyErr.normalize, PyErr.into_normalized, PyErrValue.realize,
            normalizeTriple, new_from_ffi_tuple, isSubclass_refl, mkInstance,
            excArgsMsg]
  · intro k m tb
    simp [PyErr.normalize, PyErr.into_normalized, PyErrValue.realize,
      normalizeTriple, new_from_ffi_tuple, isSubclass_refl]

/-- C4 counterexample: the claim that every construction operation other
than slot reconstruction checks the exception-class invariant with a fatal
assertion is false — `from_type` performs no check at all and happily
builds a record whose `ptype` violates the invariant. -/
theorem c4_from_type_unchecked_counterexample :
    isExceptionClass
      (PyErr.from_type (PyType.nonExc "int") (PyObj.str "boom")).ptype =
      false := rfl

/-- C4 (amended): `new` and `from_value` enforce the exception-class
invariant with a fatal assertion (they abort on a non-exception type and
any record they do return satisfies the predicate); `from_instance`
guarantees the invariant by its three-way dispatch without an assertion;
`from_type` performs no check, so it can produce a record whose
`exceptionType` fails the predicate. -/
theorem c4_construction_invariant_amended :
    (∀ (ty : PyType) (v : PyObj), isExceptionClass ty = false →
      PyErr.new ty v = Option.none) ∧
    (∀ (ty : PyType) (v : PyObj) (e : PyErr), PyErr.new ty v = some e →
      isExceptionClass e.ptype = true) ∧
    (∀ (ty : PyType) (v : PyErrValue), isExceptionClass ty = false →
      PyErr.from_value ty v = Option.none) ∧
    (∀ (ty : PyType) (v : PyErrValue) (e : PyErr),
      PyErr.from_value ty v = some e → isExceptionClass e.ptype = true) ∧
    (∀ obj : PyObj, isExceptionClass (PyErr.from_instance obj).ptype = true) ∧
    isExceptionClass
      (PyErr.from_type (PyType.nonExc "int") (PyObj.str "boom")).ptype =
      false := by
  refine ⟨?_, ?_, ?_, ?_, ?_, rfl⟩
  · intro ty v h
    simp [PyErr.new, h]
  · intro ty v e h
    by_cases hc : isExceptionClass ty = true
    · simp [PyErr.new, hc] at h
      rw [← h]
      exact hc
    · simp [PyErr.new, hc] at h
  · intro ty v h
    simp [PyErr.from_value, h]
  · intro ty v e h
    by_cases hc : isExceptionClass ty = true
    · simp [PyErr.from_value, hc] at h
      rw [← h]
      exact hc
    · simp [PyErr.from_value, hc] at h
  · intro obj
    cases obj with
    | typeObj t =>
      cases t <;>
        simp [PyErr.from_instance, isExceptionInstance, isExceptionClassObj,
          isExceptionClass, asTypeObj]
    | excInst k m =>
      simp [PyErr.from_instance, isExceptionInstance, exceptionInstanceClass,
        isExceptionClass]
    | str s =>
      simp [PyErr.from_instance, isExceptionInstance, isExceptionClassObj,
        isExceptionClass]
    | tuple xs =>
      simp [PyErr.from_instance, isExceptionInstance, isExceptionClassObj,
        isExceptionClass]
    | noneObj =>
      simp [PyErr.from_instance, isExceptionInstance, isExceptionClassObj,
        isExceptionClass]
    | other n =>
      simp [PyErr.from_instance, isExceptionInstance, isExceptionClassObj,
        isExceptionClass]

/-- Witness for C4 (amended): the assertion in `new` fires on the
non-exception class `int`. -/
theorem c4_construction_invariant_amended_witness :
    PyErr.new (PyType.nonExc "int") (PyObj.str "boom") = Option.none :=
  c4_construction_invariant_amended.1 (PyType.nonExc "int") (PyObj.str "boom")
    rfl

/-- What it means for a foreign-error conversion result to be well
converted: it is a record (no abort) of the target kind, its message is the
foreign error's own textual description, and after normalizing,
`is_instance` of the target kind holds. -/
def convertsTo (oe : Option PyErr) (target : ExcKind) (msg : String) : Prop :=
  ∃ e, oe = some e ∧ e.ptype = PyType.exc target ∧
    e.decodedMessage = some msg ∧
    (PyErr.normalize e).is_instance target = true

/-- Every conversion of the `impl_to_pyerr` shape is well converted. -/
theorem implToPyErr_convertsTo (target : ExcKind) (msg : String) :
    convertsTo (implToPyErr target msg) target msg := by
  refine ⟨{ ptype := PyType.exc target
            pvalue := PyErrValue.ToArgs (PyObj.str msg)
            ptraceback := Option.none }, ?_, rfl, rfl, ?_⟩
  · simp [implToPyErr, PyErr.from_value, isExceptionClass]
  · have hn : PyErr.normalize
        { ptype := PyType.exc target
          pvalue := PyErrValue.ToArgs (PyObj.str msg)
          ptraceback := Option.none } =
        { ptype := PyType.exc target
          pvalue := PyErrValue.Value (PyObj.excInst target (some msg))
          ptraceback := Option.none } := rfl
    rw [hn, PyErr.is_instance, givenExceptionMatches_typeObj]
    simp [matchesSingle, isSubclass_refl]

/-- C6: for every registered foreign-error kind, conversion produces a
record of the mapped target exception kind (the io-kind table exactly as
the spec states it, parse failures to `ValueError`, text-decode failures to
`UnicodeDecodeError`, nul-byte failures to `ValueError`, buffered-writer
unwrap failures to `OSError`) whose message is the foreign error's own
textual description, and after normalizing, `is_instance` of the target
kind is true. -/
theorem c6_foreign_error_conversions :
    (∀ (k : IoErrorKind) (msg : String),
      convertsTo (pyErrFromIoError { kind := k, msg := msg })
        (specIoTarget k) msg) ∧
    (∀ msg, convertsTo (parseIntErrorToPyErr msg) ExcKind.ValueError msg) ∧
    (∀ msg, convertsTo (parseFloatErrorToPyErr msg) ExcKind.ValueError msg) ∧
    (∀ msg, convertsTo (parseBoolErrorToPyErr msg) ExcKind.ValueError msg) ∧
    (∀ msg, convertsTo (tryFromSliceErrorToPyErr msg) ExcKind.ValueError msg) ∧
    (∀ msg, convertsTo (tryFromIntErrorToPyErr msg) ExcKind.ValueError msg) ∧
    (∀ msg, convertsTo (addrParseErrorToPyErr msg) ExcKind.ValueError msg) ∧
    (∀ msg, convertsTo (utf8ErrorToPyErr msg) ExcKind.UnicodeDecodeError msg) ∧
    (∀ msg,
      convertsTo (fromUtf8ErrorToPyErr msg) ExcKind.UnicodeDecodeError msg) ∧
    (∀ msg,
      convertsTo (fromUtf16ErrorToPyErr msg) ExcKind.UnicodeDecodeError msg) ∧
    (∀ msg,
      convertsTo (decodeUtf16ErrorToPyErr msg) ExcKind.UnicodeDecodeError msg) ∧
    (∀ msg,
      convertsTo (intoStringErrorToPyErr msg) ExcKind.UnicodeDecodeError msg) ∧
    (∀ msg, convertsTo (intoInnerErrorToPyErr msg) ExcKind.OSError msg) ∧
    (∀ pos, convertsTo (nulErrorToPyErr pos) ExcKind.ValueError
      (nulErrorMessage pos)) := by
  refine ⟨?_, fun msg => implToPyErr_convertsTo _ msg,
    fun msg => implToPyErr_convertsTo _ msg,
    fun msg => implToPyErr_convertsTo _ msg,
    fun msg => implToPyErr_convertsTo _ msg,
    fun msg => implToPyErr_convertsTo _ msg,
    fun msg => implToPyErr_convertsTo _ msg,
    fun msg => implToPyErr_convertsTo _ msg,
    fun msg => implToPyErr_convertsTo _ msg,
    fun msg => implToPyErr_convertsTo _ msg,
    fun msg => implToPyErr_convertsTo _ msg,
    fun msg => implToPyErr_convertsTo _ msg,
    fun msg => implToPyErr_convertsTo _ msg,
    fun pos => implToPyErr_convertsTo _ (nulErrorMessage pos)⟩
  intro k msg
  cases k <;> exact implToPyErr_convertsTo _ msg

/-- C7: `from_instance` dispatches three ways — an exception instance is
wrapped with its runtime class as type and the instance itself as value; an
exception class becomes `(that class, Empty)`; any other object yields a
`TypeError` with the fixed message "exceptions must derive from
BaseException". -/
theorem c7_from_instance_dispatch :
    (∀ (k : ExcKind) (m : Option String),
      PyErr.from_instance (PyObj.excInst k m) =
        { ptype := PyType.exc k
          pvalue := PyErrValue.Value (PyObj.excInst k m)
          ptraceback := Option.none }) ∧
    (∀ t : PyType, isExceptionClass t = true →
      PyErr.from_instance (PyObj.typeObj t) =
        { ptype := t, pvalue := PyErrValue.None,
          ptraceback := Option.none }) ∧
    (∀ obj : PyObj, isExceptionInstance obj = false →
      isExceptionClassObj obj = false →
      PyErr.from_instance obj =
        { ptype := PyType.exc ExcKind.TypeError
          pvalue := PyErrValue.ToObject
            (PyObj.str "exceptions must derive from BaseException")
          ptraceback := Option.none }) := by
  refine ⟨fun k m => rfl, ?_, ?_⟩
  · intro t h
    simp [PyErr.from_instance, isExceptionInstance, isExceptionClassObj, h,
      asTypeObj]
  · intro obj h1 h2
    simp [PyErr.from_instance, h1, h2]

/-- Witness for C7: a plain string object falls into the third branch and
yields the fixed-message `TypeError` record. -/
theorem c7_from_instance_dispatch_witness :
    PyErr.from_instance (PyObj.str "x") =
      { ptype := PyType.exc ExcKind.TypeError
        pvalue := PyErrValue.ToObject
          (PyObj.str "exceptions must derive from BaseException")
        ptraceback := Option.none } :=
  c7_from_instance_dispatch.2.2 (PyObj.str "x") rfl rfl

/-- C8: `clone_ref` is non-consuming (it takes the record by shared
reference; here a pure function of it), duplicates `ptype` and
`ptraceback` by sharing, maps the `None` payload to `None`, shares a
`Value` payload, evaluates either lazy payload immediately into a concrete
`Value`, and the clone matches the original's exception-type handle. -/
theorem c8_clone_ref_spec (e : PyErr) :
    (e.clone_ref.ptype = e.ptype) ∧
    (e.clone_ref.ptraceback = e.ptraceback) ∧
    (e.pvalue = PyErrValue.None → e.clone_ref.pvalue = PyErrValue.None) ∧
    (∀ ob, e.pvalue = PyErrValue.Value ob →
      e.clone_ref.pvalue = PyErrValue.Value ob) ∧
    (∀ args, e.pvalue = PyErrValue.ToArgs args →
      e.clone_ref.pvalue = PyErrValue.Value args) ∧
    (∀ ob, e.pvalue = PyErrValue.ToObject ob →
      e.clone_ref.pvalue = PyErrValue.Value ob) ∧
    e.clone_ref.matches (PyObj.typeObj e.ptype) = true := by
  refine ⟨rfl, rfl, ?_, ?_, ?_, ?_, ?_⟩
  · intro h
    simp [PyErr.clone_ref, h]
  · intro ob h
    simp [PyErr.clone_ref, h]
  · intro args h
    simp [PyErr.clone_ref, h]
  · intro ob h
    simp [PyErr.clone_ref, h]
  · show givenExceptionMatches e.ptype (PyObj.typeObj e.ptype) = true
    exact givenExceptionMatches_self e.ptype

/-- Witness for C8: cloning a lazy-arguments record realizes the payload
into a concrete value. -/
theorem c8_clone_ref_spec_witness :
    (PyErr.clone_ref
      { ptype := PyType.exc ExcKind.ValueError
        pvalue := PyErrValue.ToArgs (PyObj.str "m")
        ptraceback := Option.none }).pvalue =
      PyErrValue.Value (PyObj.str "m") :=
  (c8_clone_ref_spec
    { ptype := PyType.exc ExcKind.ValueError
      pvalue := PyErrValue.ToArgs (PyObj.str "m")
      ptraceback := Option.none }).2.2.2.2.1 (PyObj.str "m") rfl

/-- C9: when building the warning message string fails text validation
(an embedded nul byte), `warn` returns a raised record of the `ValueError`
kind (with the nul error's own description as its message) rather than
aborting or silently dropping the failure. -/
theorem c9_warn_nul_message_value_error (category : PyObj) (message : String)
    (stacklevel hostCode : Int) (s : PyState) (p : Nat)
    (h : firstNulPos message = some p) :
    ∃ e, PyErr.warn category message stacklevel hostCode s =
        some (CallOutcome.raised e, s) ∧
      e.ptype = PyType.exc ExcKind.ValueError ∧
      e.decodedMessage = some (nulErrorMessage p) := by
  refine ⟨{ ptype := PyType.exc ExcKind.ValueError
            pvalue := PyErrValue.ToArgs (PyObj.str (nulErrorMessage p))
            ptraceback := Option.none }, ?_, rfl, rfl⟩
  simp [PyErr.warn, h, nulErrorToPyErr, PyErr.from_value, isExceptionClass]

/-- Witness for C9: a message with a nul byte at position 1 produces the
`ValueError` record. -/
theorem c9_warn_nul_message_value_error_witness :
    ∃ e, PyErr.warn PyObj.noneObj "a\x00b" 1 0 { slot := Option.none } =
        some (CallOutcome.raised e, { slot := Option.none }) ∧
      e.ptype = PyType.exc ExcKind.ValueError ∧
      e.decodedMessage = some (nulErrorMessage 1) :=
  c9_warn_nul_message_value_error PyObj.noneObj "a\x00b" 1 0
    { slot := Option.none } 1 (by decide)

/-- C10: the matching operations `matches` and `is_instance` consult only
the record's exception-type handle — two records with the same `ptype` but
arbitrary (possibly lazy) payloads and tracebacks give identical results,
so no lazy producer is ever invoked; being pure functions of the record,
they leave all its fields unchanged. -/
theorem c10_matches_consults_only_type (t : PyType) (v v' : PyErrValue)
    (tb tb' : Option PyObj) (exc : PyObj) (k : ExcKind) :
    PyErr.matches { ptype := t, pvalue := v, ptraceback := tb } exc =
      PyErr.matches { ptype := t, pvalue := v', ptraceback := tb' } exc ∧
    PyErr.is_instance { ptype := t, pvalue := v, ptraceback := tb } k =
      PyErr.is_instance { ptype := t, pvalue := v', ptraceback := tb' } k :=
  ⟨rfl, rfl⟩
